import Mathlib

/-!
Verification of the TTExercise near-earth-object reporting script
(src/tt_exercise.py) against its natural-language specification.

The script has three top-level procedures sharing one HTTP call pattern:
  * display_asteroid_information  (Asteroid Lister)
  * display_asteroid_properties   (Velocity Analyzer)
  * display_recent_hazardous_asteroids (Hazard Scanner)

The embedding below models the parsed JSON response (`near_earth_objects`)
as an ordered association list from date strings to asteroid lists, HTTP
responses as a status/reason/body record, Python exceptions as an error
inductive, and the floating-point velocities as rational numbers.  Calendar
dates inside the Hazard Scanner are modelled as integers counting days
(datetime arithmetic with timedelta(days = k) becomes integer subtraction).
Each procedure becomes a pure function from the HTTP response(s) it would
receive to either an error or its printed output / computed values.
-/

namespace TTExercise

/-- One element of the `close_approach_data` list of an asteroid.  The JSON
field `relative_velocity.kilometers_per_second` is a string-encoded float;
we model the value obtained from the `float(...)` parse as a rational
number. -/
structure CloseApproach where
  close_approach_date_full : String
  kilometers_per_second : ℚ
  deriving Repr, DecidableEq

/-- One asteroid record of a date bucket in `near_earth_objects`. -/
structure Asteroid where
  name : String
  id : String
  is_potentially_hazardous_asteroid : Bool
  close_approach_data : List CloseApproach
  deriving Repr, DecidableEq

/-- The `near_earth_objects` mapping: date string to asteroid list, with the
iteration order of the JSON object preserved. -/
abbrev Feed := List (String × List Asteroid)

/-- An HTTP response as the script observes it: `status_code`, `reason`, and
the parsed JSON body (already projected to `near_earth_objects`). -/
structure HttpResponse where
  status_code : Nat
  reason : String
  body : Feed
  deriving Repr, DecidableEq

/-- Python exceptions the script can raise, plus the typed
`EmptyDatasetError` that the error taxonomy of the specification demands of the
Velocity Analyzer (the inductive is the taxonomy; whether the code ever
produces `emptyDatasetError` is exactly what claim C2 settles). -/
inductive PyError where
  | remoteServiceError (status : Nat) (reason : String)
  | valueError (msg : String)
  | indexError (msg : String)
  | zeroDivisionError
  | emptyDatasetError
  deriving Repr, DecidableEq

/-- Decidable equality on Except values, so that concrete runs of the
embedded procedures can be settled by evaluation. -/
instance exceptDecidableEq {ε α : Type} [DecidableEq ε] [DecidableEq α] :
    DecidableEq (Except ε α) := fun x y =>
  match x, y with
  | .ok a, .ok b =>
    if h : a = b then .isTrue (by rw [h]) else .isFalse (by simp [h])
  | .error e, .error f =>
    if h : e = f then .isTrue (by rw [h]) else .isFalse (by simp [h])
  | .ok _, .error _ => .isFalse (by simp)
  | .error _, .ok _ => .isFalse (by simp)

/-! ## Asteroid Lister: display_asteroid_information (lines 9-43) -/

/-- Line printed for one close-approach entry (line 38-39 of the source). -/
def approachLine (c : CloseApproach) : String :=
  "Close approach date (full): " ++ c.close_approach_date_full

/-- Lines printed for one asteroid (lines 32-39): separator, name, ID, then
one line per close-approach entry, iterating all of them. -/
def asteroidLines (a : Asteroid) : List String :=
  " ---------- " :: ("Name: " ++ a.name) :: ("ID: " ++ a.id) ::
    a.close_approach_data.map approachLine

/-- Lines printed for one date bucket (lines 30-40): header, the asteroid
lines, then the empty line from the trailing print(). -/
def dateLines (d : String × List Asteroid) : List String :=
  ("---------- Asteroids approach date: " ++ d.1 ++ " ----------") ::
    (d.2.flatMap asteroidLines ++ [""])

/-- display_asteroid_information (lines 9-43): single fetch; on HTTP 200 it
walks `near_earth_objects` in response order and prints; on any other status
it raises Exception(f"Error {status_code}: {reason}") (line 43), which the
specification types as RemoteServiceError. The result is the list of printed
lines. -/
def display_asteroid_information (response : HttpResponse) :
    Except PyError (List String) :=
  if response.status_code = 200 then
    .ok (response.body.flatMap dateLines)
  else
    .error (.remoteServiceError response.status_code response.reason)

/-! ## Velocity Analyzer: display_asteroid_properties (lines 46-101) -/

/-- Python indexing `asteroid["close_approach_data"][0]` followed by the
velocity projection and float() parse (lines 76-78): IndexError on an
asteroid with no close-approach entries. -/
def extractVelocity (a : Asteroid) : Except PyError ℚ :=
  match a.close_approach_data with
  | [] => .error (.indexError "list index out of range")
  | c :: _ => .ok c.kilometers_per_second

/-- Inner loop of the extraction (line 75): the velocities of the asteroids
of one date bucket, in order; the first failing asteroid aborts, as the
raised IndexError would in Python. -/
def extractVelocitiesAsts (asts : List Asteroid) : Except PyError (List ℚ) :=
  match asts with
  | [] => .ok []
  | a :: rest =>
    match extractVelocity a with
    | .error e => .error e
    | .ok v =>
      match extractVelocitiesAsts rest with
      | .error e => .error e
      | .ok vs => .ok (v :: vs)

/-- The nested extraction loop of lines 74-78: for each date in order, for
each asteroid in order, append its first close-approach velocity. -/
def extractVelocities (feed : Feed) : Except PyError (List ℚ) :=
  match feed with
  | [] => .ok []
  | (_, asts) :: rest =>
    match extractVelocitiesAsts asts with
    | .error e => .error e
    | .ok vs =>
      match extractVelocities rest with
      | .error e => .error e
      | .ok tail => .ok (vs ++ tail)

/-- Python max(l) (line 80): ValueError on an empty list, otherwise the fold
of the binary maximum over the list. -/
def pyMax (l : List ℚ) : Except PyError ℚ :=
  match l with
  | [] => .error (.valueError "max() arg is an empty sequence")
  | x :: xs => .ok (xs.foldl max x)

/-- Python min(l) (line 81): ValueError on an empty list, otherwise the fold
of the binary minimum over the list. -/
def pyMin (l : List ℚ) : Except PyError ℚ :=
  match l with
  | [] => .error (.valueError "min() arg is an empty sequence")
  | x :: xs => .ok (xs.foldl min x)

/-- Python division sum(l) / len(l) (line 84): ZeroDivisionError when the
denominator is zero. -/
def pyDiv (a : ℚ) (n : Nat) : Except PyError ℚ :=
  if n = 0 then .error .zeroDivisionError else .ok (a / (n : ℚ))

/-- Python sorted(l) (line 86): the ascending sort of the list.  On a list
of plain numbers the ascending sort is a single well-defined function
(stability is vacuous without keys), so we model it by insertion sort. -/
def pySorted (l : List ℚ) : List ℚ :=
  l.insertionSort (fun a b => a ≤ b)

/-- Python list indexing l[i] (lines 90, 93-94): IndexError out of range. -/
def pyGet (l : List ℚ) (i : Nat) : Except PyError ℚ :=
  match l.get? i with
  | some v => .ok v
  | none => .error (.indexError "list index out of range")

/-- The median block of lines 86-94: sort ascending; odd length takes the
middle element sorted[len // 2]; even length averages
sorted[len // 2] and sorted[len // 2 - 1]. -/
def median_velocity (velocities : List ℚ) : Except PyError ℚ :=
  if (pySorted velocities).length % 2 ≠ 0 then
    pyGet (pySorted velocities) ((pySorted velocities).length / 2)
  else
    match pyGet (pySorted velocities) ((pySorted velocities).length / 2) with
    | .error e => .error e
    | .ok hi =>
      match pyGet (pySorted velocities)
          ((pySorted velocities).length / 2 - 1) with
      | .error e => .error e
      | .ok lo => .ok ((hi + lo) / 2)

/-- The aggregate block of lines 80-94 applied to the extracted velocity
list, in source order: max, min, mean (sum / len), median.  Returns
(fastest, slowest, mean, median). -/
def statistics (velocities : List ℚ) : Except PyError (ℚ × ℚ × ℚ × ℚ) :=
  match pyMax velocities with
  | .error e => .error e
  | .ok fastest =>
    match pyMin velocities with
    | .error e => .error e
    | .ok slowest =>
      match pyDiv velocities.sum velocities.length with
      | .error e => .error e
      | .ok mean =>
        match median_velocity velocities with
        | .error e => .error e
        | .ok med => .ok (fastest, slowest, mean, med)

/-- display_asteroid_properties (lines 46-101): single fetch; on HTTP 200 it
extracts the first close-approach velocity of every asteroid and computes
the four aggregates (the subsequent prints of lines 96-99 render these same
four numbers rounded to two decimals); on any other status it raises
Exception(f"Error {status_code}: {reason}") (line 101). -/
def display_asteroid_properties (response : HttpResponse) :
    Except PyError (ℚ × ℚ × ℚ × ℚ) :=
  if response.status_code = 200 then
    match extractVelocities response.body with
    | .error e => .error e
    | .ok velocities => statistics velocities
  else
    .error (.remoteServiceError response.status_code response.reason)

/-! ## Hazard Scanner: display_recent_hazardous_asteroids (lines 104-148)

Dates are integers counting days; datetime.today() is the parameter
`today`, and timedelta(days = k) subtraction is integer subtraction.  The
network is a function `env` from the queried (start_date, end_date) window
to the HTTP response; note that the source never inspects the status code
of these responses — it calls response.json() directly (line 129). -/

/-- Loop state of display_recent_hazardous_asteroids: the two window ends
and the accumulated (date, name) pairs. -/
structure ScanState where
  end_date : ℤ
  start_date : ℤ
  hazardous_asteroids : List (String × String)
  deriving Repr, DecidableEq

/-- Initial state (lines 115-118): end_date = today, start_date = today - 1,
hazardous_asteroids = []. -/
def scanInit (today : ℤ) : ScanState :=
  { end_date := today, start_date := today - 1, hazardous_asteroids := [] }

/-- The while-condition of line 121:
len(hazardous_asteroids) < 3 and start_date > end_date - timedelta(days=30).
Note that end_date here is the current, already-shifted end date of the
state, not the date of the call. -/
def scanGuard (st : ScanState) : Bool :=
  st.hazardous_asteroids.length < 3 && st.start_date > st.end_date - 30

/-- The inner date loop of lines 132-139: for each date bucket in response
order, append (date, name) for every asteroid whose hazard flag is true,
then break out of the date loop if at least 3 pairs have accumulated. -/
def processDates (buckets : Feed) (found : List (String × String)) :
    List (String × String) :=
  match buckets with
  | [] => found
  | (date, asts) :: rest =>
    let found2 := found ++
      (asts.filter (fun a => a.is_potentially_hazardous_asteroid)).map
        (fun a => (date, a.name))
    if found2.length ≥ 3 then found2 else processDates rest found2

/-- One loop body applied to an already-received response (lines 128-143):
parse the body with no status check, scan its date buckets, then shift both
window ends back one day. -/
def scanStepResp (response : HttpResponse) (st : ScanState) : ScanState :=
  { end_date := st.end_date - 1
    start_date := st.start_date - 1
    hazardous_asteroids := processDates response.body st.hazardous_asteroids }

/-- One loop body including the fetch for the current window (line 128). -/
def scanStep (env : ℤ × ℤ → HttpResponse) (st : ScanState) : ScanState :=
  scanStepResp (env (st.start_date, st.end_date)) st

/-- The while loop of lines 121-143, run with explicit fuel: stop when the
guard fails or the fuel is exhausted.  The source has no fuel bound; the
fuel makes the possibly non-terminating loop a total function, and claim C1
examines whether any fuel of about 30 actually suffices. -/
def scanLoop (env : ℤ × ℤ → HttpResponse) : Nat → ScanState → ScanState
  | 0, st => st
  | n + 1, st => if scanGuard st then scanLoop env n (scanStep env st) else st

/-- Header line of line 146 (today rendered as the day number stands in for
strftime of the date). -/
def scanHeader (today : ℤ) : String :=
  "The three most recent hazardous asteroids As of today " ++
    toString today ++ " are:"

/-- Output line for one collected pair (line 148). -/
def pairLine (p : String × String) : String :=
  p.1 ++ ": " ++ p.2

/-- display_recent_hazardous_asteroids (lines 104-148), as the list of lines
it prints when the loop finishes within the given fuel: run the loop from
the initial state, then print the header and every accumulated pair. -/
def display_recent_hazardous_asteroids (today : ℤ)
    (env : ℤ × ℤ → HttpResponse) (fuel : Nat) : List String :=
  scanHeader today ::
    (scanLoop env fuel (scanInit today)).hazardous_asteroids.map pairLine

/-! ## Concrete fixtures used by the claim theorems -/

/-- An asteroid fixture whose hazard flag is true. -/
def hazAst (nm : String) : Asteroid :=
  { name := nm, id := "0", is_potentially_hazardous_asteroid := true,
    close_approach_data :=
      [{ close_approach_date_full := "d", kilometers_per_second := 1 }] }

/-- An environment answering every query with HTTP 200 and an empty
`near_earth_objects` (no asteroid is ever hazardous). -/
def envEmpty : ℤ × ℤ → HttpResponse :=
  fun _ => { status_code := 200, reason := "OK", body := [] }

/-- An environment answering every query with HTTP 404 whose body still
parses to a feed containing three hazardous asteroids. -/
def env404 : ℤ × ℤ → HttpResponse :=
  fun _ =>
    { status_code := 404, reason := "Not Found",
      body := [("2025-01-01", [hazAst "H1", hazAst "H2", hazAst "H3"])] }

/-- Date buckets where the first bucket alone already yields three hazardous
pairs and a later bucket holds one more hazardous asteroid. -/
def feedBreakTest : Feed :=
  [("2025-01-02", [hazAst "H1", hazAst "H2", hazAst "H3"]),
   ("2025-01-03", [hazAst "H4"])]

/-- An environment whose response has four hazardous asteroids in a single
date bucket. -/
def envFour : ℤ × ℤ → HttpResponse :=
  fun _ =>
    { status_code := 200, reason := "OK",
      body := [("2025-01-03",
        [hazAst "K1", hazAst "K2", hazAst "K3", hazAst "K4"])] }

/-- The single-asteroid feed of the end-to-end scenario of the
specification. -/
def feedScenario : Feed :=
  [("2019-10-31",
    [{ name := "A", id := "1", is_potentially_hazardous_asteroid := false,
       close_approach_data :=
         [{ close_approach_date_full := "2019-Oct-31 00:00",
            kilometers_per_second := 1 }] }])]

/-! ## Claim theorems -/

/-- C6: for every HTTP response with a status other than 200, the Fetcher
step of display_asteroid_information and of display_asteroid_properties
fails with a RemoteServiceError carrying the numeric status code and the
reason phrase (lines 42-43 and 100-101); each call performs exactly one
fetch, so no retry is issued. -/
theorem C6_fetcher_non200_remote_service_error (status : Nat)
    (reason : String) (feed : Feed) (h : status ≠ 200) :
    display_asteroid_information ⟨status, reason, feed⟩ =
      .error (.remoteServiceError status reason) ∧
    display_asteroid_properties ⟨status, reason, feed⟩ =
      .error (.remoteServiceError status reason) := by
  constructor <;>
    simp [display_asteroid_information, display_asteroid_properties, h]

/-- Witness for C6 at a simulated HTTP 404 response. -/
theorem C6_fetcher_non200_remote_service_error_witness :
    display_asteroid_information ⟨404, "Not Found", []⟩ =
      .error (.remoteServiceError 404 "Not Found") ∧
    display_asteroid_properties ⟨404, "Not Found", []⟩ =
      .error (.remoteServiceError 404 "Not Found") :=
  C6_fetcher_non200_remote_service_error 404 "Not Found" [] (by decide)

/-- C2 evaluated at the failing input: on an HTTP 200 response whose date
range yields zero asteroids, display_asteroid_properties fails with the
untyped ValueError raised by max() on the empty velocity list (line 80) —
not with the typed EmptyDatasetError the specification requires, and not
with a division fault either, since the failure precedes the mean
computation of line 84. -/
theorem C2_empty_dataset_raises_value_error :
    display_asteroid_properties ⟨200, "OK", []⟩ =
      .error (.valueError "max() arg is an empty sequence") ∧
    display_asteroid_properties ⟨200, "OK", []⟩ ≠
      .error .emptyDatasetError ∧
    display_asteroid_properties ⟨200, "OK", []⟩ ≠
      .error .zeroDivisionError := by
  have h : display_asteroid_properties ⟨200, "OK", []⟩ =
      .error (.valueError "max() arg is an empty sequence") := rfl
  refine ⟨h, ?_, ?_⟩ <;> rw [h] <;> simp

/-- C3 falsified at a concrete input: a feed query answered with HTTP 404
during the Hazard Scanner does not fail with a RemoteServiceError — the
scanner calls response.json() with no status check (line 129), processes
the body of the 404 response, collects its hazardous asteroids, and prints
a normal report. -/
theorem C3_counterexample_scanner_processes_404 :
    display_recent_hazardous_asteroids 0 env404 30 =
      [scanHeader 0, "2025-01-01: H1", "2025-01-01: H2", "2025-01-01: H3"] :=
  rfl

/-- C3 amended: only display_asteroid_information and
display_asteroid_properties fail with a RemoteServiceError on a non-200
feed response; the Hazard Scanner never inspects the HTTP status, and its
loop body treats every response exactly like an HTTP 200 response carrying
the same body. -/
theorem C3_scanner_ignores_http_status (r : HttpResponse) (st : ScanState) :
    scanStepResp r st = scanStepResp ⟨200, "OK", r.body⟩ st :=
  rfl

/-- C7: on every 200 feed response the Asteroid Lister prints, per date key
in response order, a section header containing the date followed by the
per-asteroid lines; per asteroid it prints the separator, the name line,
the ID line, and one close-approach line per close_approach_data entry,
iterating all entries; on the single-asteroid feed of the end-to-end
scenario the printed lines are exactly the header for 2019-10-31 followed
by the separator, Name: A, ID: 1, and the full close-approach date line. -/
theorem C7_lister_prints_all_entries :
    (∀ (reason : String) (feed : Feed),
      display_asteroid_information ⟨200, reason, feed⟩ =
        .ok (feed.flatMap dateLines)) ∧
    (∀ d : String × List Asteroid,
      dateLines d =
        ("---------- Asteroids approach date: " ++ d.1 ++ " ----------") ::
          (d.2.flatMap asteroidLines ++ [""])) ∧
    (∀ a : Asteroid,
      asteroidLines a =
        " ---------- " :: ("Name: " ++ a.name) :: ("ID: " ++ a.id) ::
          a.close_approach_data.map approachLine ∧
      (asteroidLines a).length = 3 + a.close_approach_data.length) ∧
    display_asteroid_information ⟨200, "OK", feedScenario⟩ =
      .ok ["---------- Asteroids approach date: 2019-10-31 ----------",
           " ---------- ", "Name: A", "ID: 1",
           "Close approach date (full): 2019-Oct-31 00:00", ""] := by
  refine ⟨fun reason feed => rfl, fun d => rfl, fun a => ⟨rfl, ?_⟩, rfl⟩
  simp only [asteroidLines, List.length_cons, List.length_map]
  omega

/-- C1 evaluated against the code: with every response an HTTP 200 feed
containing no asteroids (so fewer than three hazardous asteroids ever
appear), the loop of lines 121-143 never stops.  The guard of line 121
compares start_date with the already-shifted end_date rather than with the
date of the call, and start_date = end_date - 1 throughout, so the 30-day
conjunct is always true: after every number of iterations the state is
again an initial-shaped state whose guard holds; in particular after 30
iterations the guard still holds and the next query window starts 31 days
before the call date, beyond the claimed 30-day lookback. -/
theorem C1_scanner_lookback_bound_never_fires :
    (∀ (today : ℤ) (n : Nat),
      scanLoop envEmpty n (scanInit today) = scanInit (today - n) ∧
      scanGuard (scanLoop envEmpty n (scanInit today)) = true) ∧
    scanGuard (scanLoop envEmpty 30 (scanInit 0)) = true ∧
    (scanLoop envEmpty 30 (scanInit 0)).start_date = -31 ∧
    (scanLoop envEmpty 30 (scanInit 0)).start_date < 0 - 30 := by
  have hg : ∀ s : ℤ, scanGuard (scanInit s) = true := by
    intro s
    simp only [scanGuard, scanInit, List.length_nil, Bool.and_eq_true,
      decide_eq_true_eq]
    omega
  have key : ∀ (n : Nat) (today : ℤ),
      scanLoop envEmpty n (scanInit today) = scanInit (today - n) := by
    intro n
    induction n with
    | zero =>
      intro t
      simp [scanLoop, scanInit]
    | succ k ih =>
      intro t
      have hstep : scanStep envEmpty (scanInit t) = scanInit (t - 1) := by
        simp [scanStep, scanStepResp, scanInit, envEmpty, processDates]
      calc scanLoop envEmpty (k + 1) (scanInit t)
          = scanLoop envEmpty k (scanStep envEmpty (scanInit t)) := by
            simp [scanLoop, hg t]
        _ = scanLoop envEmpty k (scanInit (t - 1)) := by rw [hstep]
        _ = scanInit (t - 1 - k) := ih (t - 1)
        _ = scanInit (t - (k + 1 : Nat)) := by
            congr 1
            push_cast
            ring
  refine ⟨fun t n => ⟨key n t, by rw [key n t]; exact hg _⟩, ?_, ?_, ?_⟩
  · rw [key 30 0]; exact hg _
  · rw [key 30 0]; rfl
  · rw [key 30 0]; norm_num [scanInit]

/-- C10: at every reachable state of the Hazard Scanner loop, start_date is
exactly end_date minus one day, so every feed query it issues covers a
window of exactly two calendar days; the window slides backward but is
never widened or narrowed. -/
theorem C10_window_width_invariant (env : ℤ × ℤ → HttpResponse)
    (today : ℤ) (n : Nat) :
    (scanLoop env n (scanInit today)).start_date =
      (scanLoop env n (scanInit today)).end_date - 1 := by
  have aux : ∀ (m : Nat) (st : ScanState),
      st.start_date = st.end_date - 1 →
      (scanLoop env m st).start_date = (scanLoop env m st).end_date - 1 := by
    intro m
    induction m with
    | zero =>
      intro st h
      simpa [scanLoop] using h
    | succ k ih =>
      intro st h
      simp only [scanLoop]
      by_cases hgd : scanGuard st
      · rw [if_pos hgd]
        refine ih _ ?_
        simp only [scanStep, scanStepResp]
        omega
      · rw [if_neg hgd]
        exact h
  exact aux n (scanInit today) (by simp [scanInit])

/-- C5: the Hazard Scanner report prints the header and then every
accumulated (date, name) pair in discovery order with no truncation to
three entries; once a date bucket pushes the count to at least three, only
the inner per-date loop is exited, so the remaining date buckets of that
response are not examined; and a single bucket holding several hazardous
asteroids makes more than three entries appear in the report. -/
theorem C5_report_untruncated_inner_break :
    (∀ (today : ℤ) (env : ℤ × ℤ → HttpResponse) (fuel : Nat),
      display_recent_hazardous_asteroids today env fuel =
        scanHeader today ::
          (scanLoop env fuel (scanInit today)).hazardous_asteroids.map
            pairLine) ∧
    (∀ (date : String) (asts : List Asteroid) (rest : Feed)
        (found : List (String × String)),
      3 ≤ (found ++
        (asts.filter (fun a => a.is_potentially_hazardous_asteroid)).map
          (fun a => (date, a.name))).length →
      processDates ((date, asts) :: rest) found =
        found ++
          (asts.filter (fun a => a.is_potentially_hazardous_asteroid)).map
            (fun a => (date, a.name))) ∧
    processDates feedBreakTest [] =
      [("2025-01-02", "H1"), ("2025-01-02", "H2"), ("2025-01-02", "H3")] ∧
    display_recent_hazardous_asteroids 0 envFour 30 =
      [scanHeader 0, "2025-01-03: K1", "2025-01-03: K2",
       "2025-01-03: K3", "2025-01-03: K4"] := by
  refine ⟨fun t e f => rfl, ?_, rfl, rfl⟩
  intro date asts rest found h
  simp only [processDates]
  rw [if_pos h]

/-- Witness for C5: the inner break applied at a concrete response whose
first date bucket alone reaches three hazardous pairs, leaving the later
bucket unexamined. -/
theorem C5_report_untruncated_inner_break_witness :
    processDates
        [("a", [hazAst "X1", hazAst "X2", hazAst "X3"]),
         ("b", [hazAst "Y"])] [] =
      [] ++ (([hazAst "X1", hazAst "X2", hazAst "X3"].filter
          (fun a => a.is_potentially_hazardous_asteroid)).map
            (fun a => ("a", a.name))) :=
  C5_report_untruncated_inner_break.2.1 "a"
    [hazAst "X1", hazAst "X2", hazAst "X3"] [("b", [hazAst "Y"])] []
    (by decide)

/-! ## Helper lemmas about the aggregate computations -/

/-- The fold computing Python max always lands in the list it folds over. -/
theorem foldl_max_mem (xs : List ℚ) : ∀ x : ℚ, xs.foldl max x ∈ x :: xs := by
  induction xs with
  | nil =>
    intro x
    simp [List.foldl_nil]
  | cons y ys ih =>
    intro x
    simp only [List.foldl_cons]
    rcases List.mem_cons.mp (ih (max x y)) with h1 | h1
    · rcases max_choice x y with hm | hm
      · rw [h1, hm]
        exact List.mem_cons_self _ _
      · rw [h1, hm]
        exact List.mem_cons_of_mem _ (List.mem_cons_self _ _)
    · exact List.mem_cons_of_mem _ (List.mem_cons_of_mem _ h1)

/-- The fold computing Python max bounds every element from above. -/
theorem le_foldl_max (xs : List ℚ) :
    ∀ x : ℚ, ∀ y ∈ x :: xs, y ≤ xs.foldl max x := by
  induction xs with
  | nil =>
    intro x y hy
    rw [List.mem_singleton.mp hy]
    simp [List.foldl_nil]
  | cons z zs ih =>
    intro x y hy
    simp only [List.foldl_cons]
    rcases List.mem_cons.mp hy with h1 | h1
    · rw [h1]
      exact le_trans (le_max_left x z)
        (ih (max x z) (max x z) (List.mem_cons_self _ _))
    · rcases List.mem_cons.mp h1 with h2 | h2
      · rw [h2]
        exact le_trans (le_max_right x z)
          (ih (max x z) (max x z) (List.mem_cons_self _ _))
      · exact ih (max x z) y (List.mem_cons_of_mem _ h2)

/-- The fold computing Python min always lands in the list it folds over. -/
theorem foldl_min_mem (xs : List ℚ) : ∀ x : ℚ, xs.foldl min x ∈ x :: xs := by
  induction xs with
  | nil =>
    intro x
    simp [List.foldl_nil]
  | cons y ys ih =>
    intro x
    simp only [List.foldl_cons]
    rcases List.mem_cons.mp (ih (min x y)) with h1 | h1
    · rcases min_choice x y with hm | hm
      · rw [h1, hm]
        exact List.mem_cons_self _ _
      · rw [h1, hm]
        exact List.mem_cons_of_mem _ (List.mem_cons_self _ _)
    · exact List.mem_cons_of_mem _ (List.mem_cons_of_mem _ h1)

/-- The fold computing Python min bounds every element from below. -/
theorem foldl_min_le (xs : List ℚ) :
    ∀ x : ℚ, ∀ y ∈ x :: xs, xs.foldl min x ≤ y := by
  induction xs with
  | nil =>
    intro x y hy
    rw [List.mem_singleton.mp hy]
    simp [List.foldl_nil]
  | cons z zs ih =>
    intro x y hy
    simp only [List.foldl_cons]
    rcases List.mem_cons.mp hy with h1 | h1
    · rw [h1]
      exact le_trans (ih (min x z) (min x z) (List.mem_cons_self _ _))
        (min_le_left x z)
    · rcases List.mem_cons.mp h1 with h2 | h2
      · rw [h2]
        exact le_trans (ih (min x z) (min x z) (List.mem_cons_self _ _))
          (min_le_right x z)
      · exact ih (min x z) y (List.mem_cons_of_mem _ h2)

/-- A successful pyMax returns a greatest element of the list. -/
theorem pyMax_ok (l : List ℚ) (m : ℚ) (h : pyMax l = .ok m) :
    m ∈ l ∧ ∀ y ∈ l, y ≤ m := by
  cases l with
  | nil => simp [pyMax] at h
  | cons x xs =>
    simp only [pyMax, Except.ok.injEq] at h
    subst h
    exact ⟨foldl_max_mem xs x, le_foldl_max xs x⟩

/-- A successful pyMin returns a least element of the list. -/
theorem pyMin_ok (l : List ℚ) (m : ℚ) (h : pyMin l = .ok m) :
    m ∈ l ∧ ∀ y ∈ l, m ≤ y := by
  cases l with
  | nil => simp [pyMin] at h
  | cons x xs =>
    simp only [pyMin, Except.ok.injEq] at h
    subst h
    exact ⟨foldl_min_mem xs x, foldl_min_le xs x⟩

/-- pySorted is a permutation of its input. -/
theorem pySorted_perm (l : List ℚ) : (pySorted l).Perm l :=
  List.perm_insertionSort _ l

/-- pySorted preserves length. -/
theorem pySorted_length (l : List ℚ) : (pySorted l).length = l.length :=
  (pySorted_perm l).length_eq

/-- Indexing within bounds succeeds and returns the indexed element. -/
theorem pyGet_ok (l : List ℚ) (i : Nat) (h : i < l.length) :
    pyGet l i = .ok (l.getD i 0) := by
  unfold pyGet
  cases hg : l.get? i with
  | none => exact absurd (List.get?_eq_none.mp hg) (by omega)
  | some v =>
    rw [List.get?_eq_getElem?] at hg
    simp [List.getD_eq_getElem?_getD, hg]

/-- A successful pyGet returns an element of the list. -/
theorem pyGet_ok_mem (l : List ℚ) (i : Nat) (v : ℚ)
    (h : pyGet l i = .ok v) : v ∈ l := by
  unfold pyGet at h
  cases hg : l.get? i with
  | none =>
    rw [hg] at h
    simp at h
  | some w =>
    rw [hg] at h
    simp only [Except.ok.injEq] at h
    subst h
    exact List.get?_mem hg

/-- Inversion of a successful statistics run into its four stages. -/
theorem statistics_ok (l : List ℚ) (a b c d : ℚ)
    (h : statistics l = .ok (a, b, c, d)) :
    pyMax l = .ok a ∧ pyMin l = .ok b ∧
    pyDiv l.sum l.length = .ok c ∧ median_velocity l = .ok d := by
  unfold statistics at h
  cases h1 : pyMax l with
  | error e => rw [h1] at h; simp at h
  | ok fa =>
    cases h2 : pyMin l with
    | error e => rw [h1, h2] at h; simp at h
    | ok sl =>
      cases h3 : pyDiv l.sum l.length with
      | error e => rw [h1, h2, h3] at h; simp at h
      | ok me =>
        cases h4 : median_velocity l with
        | error e => rw [h1, h2, h3, h4] at h; simp at h
        | ok md =>
          rw [h1, h2, h3, h4] at h
          simp only [Except.ok.injEq, Prod.mk.injEq] at h
          obtain ⟨ha, hb, hc, hd⟩ := h
          subst ha
          subst hb
          subst hc
          subst hd
          exact ⟨rfl, rfl, rfl, rfl⟩

/-- The successful mean sum(l) / len(l) lies between any lower bound and
any upper bound of the elements of a non-empty list. -/
theorem mean_bounds (l : List ℚ) (mn mx me : ℚ)
    (hmn : ∀ y ∈ l, mn ≤ y) (hmx : ∀ y ∈ l, y ≤ mx)
    (hne : l ≠ []) (hme : pyDiv l.sum l.length = .ok me) :
    mn ≤ me ∧ me ≤ mx := by
  have hpos : 0 < l.length := List.length_pos.mpr hne
  have hlen0 : l.length ≠ 0 := by omega
  rw [pyDiv, if_neg hlen0] at hme
  simp only [Except.ok.injEq] at hme
  subst hme
  have hc : (0 : ℚ) < (l.length : ℚ) := by exact_mod_cast hpos
  have hub : l.sum ≤ l.length • mx := List.sum_le_card_nsmul l mx hmx
  have hlb : l.length • mn ≤ l.sum := List.card_nsmul_le_sum l mn hmn
  rw [nsmul_eq_mul] at hub hlb
  constructor
  · rw [le_div_iff hc]
    nlinarith
  · rw [div_le_iff hc]
    nlinarith

/-- The successful median lies between any lower bound and any upper bound
of the elements of the list. -/
theorem median_velocity_bounds (l : List ℚ) (mn mx md : ℚ)
    (hmn : ∀ y ∈ l, mn ≤ y) (hmx : ∀ y ∈ l, y ≤ mx)
    (hmd : median_velocity l = .ok md) :
    mn ≤ md ∧ md ≤ mx := by
  have hmem : ∀ y ∈ pySorted l, mn ≤ y ∧ y ≤ mx := by
    intro y hy
    have hyl : y ∈ l := (pySorted_perm l).mem_iff.mp hy
    exact ⟨hmn y hyl, hmx y hyl⟩
  unfold median_velocity at hmd
  by_cases hpar : (pySorted l).length % 2 ≠ 0
  · rw [if_pos hpar] at hmd
    exact hmem md (pyGet_ok_mem _ _ _ hmd)
  · rw [if_neg hpar] at hmd
    cases hhi : pyGet (pySorted l) ((pySorted l).length / 2) with
    | error e => rw [hhi] at hmd; simp at hmd
    | ok hi =>
      rw [hhi] at hmd
      cases hlo : pyGet (pySorted l) ((pySorted l).length / 2 - 1) with
      | error e => rw [hlo] at hmd; simp at hmd
      | ok lo =>
        rw [hlo] at hmd
        simp only [Except.ok.injEq] at hmd
        subst hmd
        obtain ⟨hi1, hi2⟩ := hmem hi (pyGet_ok_mem _ _ _ hhi)
        obtain ⟨lo1, lo2⟩ := hmem lo (pyGet_ok_mem _ _ _ hlo)
        constructor <;> linarith

/-- pyMax is invariant under permutation of the list. -/
theorem pyMax_perm (l₁ l₂ : List ℚ) (h : l₁.Perm l₂) :
    pyMax l₁ = pyMax l₂ := by
  cases l₁ with
  | nil =>
    rw [(h.symm).eq_nil]
  | cons x xs =>
    cases l₂ with
    | nil => exact absurd h.eq_nil (by simp)
    | cons y ys =>
      obtain ⟨hmem1, hub1⟩ := pyMax_ok (x :: xs) (xs.foldl max x) rfl
      obtain ⟨hmem2, hub2⟩ := pyMax_ok (y :: ys) (ys.foldl max y) rfl
      simp only [pyMax, Except.ok.injEq]
      exact le_antisymm (hub2 _ (h.mem_iff.mp hmem1))
        (hub1 _ (h.mem_iff.mpr hmem2))

/-- pyMin is invariant under permutation of the list. -/
theorem pyMin_perm (l₁ l₂ : List ℚ) (h : l₁.Perm l₂) :
    pyMin l₁ = pyMin l₂ := by
  cases l₁ with
  | nil =>
    rw [(h.symm).eq_nil]
  | cons x xs =>
    cases l₂ with
    | nil => exact absurd h.eq_nil (by simp)
    | cons y ys =>
      obtain ⟨hmem1, hlb1⟩ := pyMin_ok (x :: xs) (xs.foldl min x) rfl
      obtain ⟨hmem2, hlb2⟩ := pyMin_ok (y :: ys) (ys.foldl min y) rfl
      simp only [pyMin, Except.ok.injEq]
      exact le_antisymm (hlb1 _ (h.mem_iff.mpr hmem2))
        (hlb2 _ (h.mem_iff.mp hmem1))

/-- Permutations have the same ascending sort. -/
theorem pySorted_perm_eq (l₁ l₂ : List ℚ) (h : l₁.Perm l₂) :
    pySorted l₁ = pySorted l₂ :=
  List.eq_of_perm_of_sorted
    ((pySorted_perm l₁).trans (h.trans (pySorted_perm l₂).symm))
    (List.sorted_insertionSort _ l₁)
    (List.sorted_insertionSort _ l₂)

/-- The median block is invariant under permutation of the list. -/
theorem median_velocity_perm (l₁ l₂ : List ℚ) (h : l₁.Perm l₂) :
    median_velocity l₁ = median_velocity l₂ := by
  unfold median_velocity
  rw [pySorted_perm_eq l₁ l₂ h]

/-- C8: whenever the aggregate block of display_asteroid_properties
succeeds on the extracted velocity list, the computed values satisfy
slowest ≤ median ≤ fastest and slowest ≤ mean ≤ fastest. -/
theorem C8_aggregates_between_min_and_max (l : List ℚ)
    (fastest slowest mean med : ℚ)
    (h : statistics l = .ok (fastest, slowest, mean, med)) :
    slowest ≤ med ∧ med ≤ fastest ∧ slowest ≤ mean ∧ mean ≤ fastest := by
  obtain ⟨hmax, hmin, hdiv, hmed⟩ := statistics_ok l _ _ _ _ h
  obtain ⟨hmem_mx, hub⟩ := pyMax_ok l fastest hmax
  obtain ⟨hmem_mn, hlb⟩ := pyMin_ok l slowest hmin
  have hne : l ≠ [] := by
    intro he
    subst he
    simp [pyMax] at hmax
  obtain ⟨h1, h2⟩ := median_velocity_bounds l slowest fastest med hlb hub hmed
  obtain ⟨h3, h4⟩ := mean_bounds l slowest fastest mean hlb hub hne hdiv
  exact ⟨h1, h2, h3, h4⟩

/-- Witness for C8 on the velocity list [1, 2, 9]: the aggregates are
(fastest, slowest, mean, median) = (9, 1, 4, 2), which satisfy the four
inequalities. -/
theorem C8_aggregates_between_min_and_max_witness :
    statistics [1, 2, 9] = .ok (9, 1, 4, 2) ∧
    ((1 : ℚ) ≤ 2 ∧ (2 : ℚ) ≤ 9 ∧ (1 : ℚ) ≤ 4 ∧ (4 : ℚ) ≤ 9) := by
  have hs : statistics [1, 2, 9] = .ok (9, 1, 4, 2) := by
    norm_num [statistics, pyMax, pyMin, pyDiv, median_velocity, pySorted,
      pyGet, List.insertionSort, List.orderedInsert]
  exact ⟨hs, C8_aggregates_between_min_and_max [1, 2, 9] 9 1 4 2 hs⟩

/-- C9: the four aggregates computed by display_asteroid_properties are
invariant under permutation of the extracted velocity sequence. -/
theorem C9_aggregates_permutation_invariant (l₁ l₂ : List ℚ)
    (h : l₁.Perm l₂) : statistics l₁ = statistics l₂ := by
  unfold statistics
  rw [pyMax_perm l₁ l₂ h, pyMin_perm l₁ l₂ h, h.sum_eq, h.length_eq,
    median_velocity_perm l₁ l₂ h]

/-- Witness for C9 on the permuted pair [3, 7] and [7, 3]. -/
theorem C9_aggregates_permutation_invariant_witness :
    ([(3 : ℚ), 7].Perm [7, 3]) ∧ statistics [3, 7] = statistics [7, 3] :=
  ⟨by decide, C9_aggregates_permutation_invariant [3, 7] [7, 3] (by decide)⟩

/-- C4: the median block of lines 86-94 computes the standard order
statistic on the ascending sort of the velocities: an odd count takes the
middle element, an even count averages the two central elements; in
particular the median of [5] is 5, of [3, 7] is 5, and of [1, 2, 9]
is 2. -/
theorem C4_median_is_order_statistic :
    (∀ l : List ℚ, l ≠ [] →
      (l.length % 2 = 1 →
        median_velocity l = .ok ((pySorted l).getD (l.length / 2) 0)) ∧
      (l.length % 2 = 0 →
        median_velocity l =
          .ok (((pySorted l).getD (l.length / 2) 0 +
                (pySorted l).getD (l.length / 2 - 1) 0) / 2))) ∧
    median_velocity [5] = .ok 5 ∧
    median_velocity [3, 7] = .ok 5 ∧
    median_velocity [1, 2, 9] = .ok 2 := by
  refine ⟨?_, ?_, ?_, ?_⟩
  case refine_2 =>
    norm_num [median_velocity, pySorted, pyGet, List.insertionSort,
      List.orderedInsert]
  case refine_3 =>
    norm_num [median_velocity, pySorted, pyGet, List.insertionSort,
      List.orderedInsert]
  case refine_4 =>
    norm_num [median_velocity, pySorted, pyGet, List.insertionSort,
      List.orderedInsert]
  intro l hl
  have hlen : (pySorted l).length = l.length := pySorted_length l
  have hpos : 0 < l.length := List.length_pos.mpr hl
  constructor
  · intro hodd
    unfold median_velocity
    rw [hlen, if_pos (by omega : l.length % 2 ≠ 0)]
    exact pyGet_ok (pySorted l) (l.length / 2) (by omega)
  · intro heven
    unfold median_velocity
    rw [hlen, if_neg (by omega : ¬ l.length % 2 ≠ 0)]
    rw [pyGet_ok (pySorted l) (l.length / 2) (by omega),
      pyGet_ok (pySorted l) (l.length / 2 - 1) (by omega)]

/-- Witness for C4 on the odd-length list [1, 2, 9]. -/
theorem C4_median_is_order_statistic_witness :
    median_velocity [1, 2, 9] = .ok ((pySorted [1, 2, 9]).getD (3 / 2) 0) :=
  (C4_median_is_order_statistic.1 [1, 2, 9] (by decide)).1 (by decide)

end TTExercise
